import Mathlib

/-!
Verification of the Federation & Audit Engine of the
`quantum-memory-orchestrator` repository.

The definitions below are a shallow embedding of the Python source:

* `src/src/orchestrator/quantum_memory.py` — the federation engine
  (`QuantumMemoryOrchestrator`): the hash-chained audit trail
  (`_create_audit_entry`, `_verify_audit_chain`), unified store/search
  (`store_memory_unified`, `search_memory_unified`), the per-backend
  wrappers (`_store_mem0`, `_store_supermemory`, `_search_mem0`,
  `_search_supermemory`) and the result merger (`_merge_search_results`);
* `src/src/orchestrator/adapters/mem0_adapter.py` and
  `supermemory_adapter.py` — the backend adapters' `store` methods;
* `src/memoryplugin/memoryplugin_client.py` — the resilient HTTP
  request helper `MemoryPluginClient._request`.

Machine-word arithmetic (SHA-256) is modelled on `Nat` with explicit
reduction modulo `2 ^ 32`.  Nondeterministic external inputs of the
Python code (uuid4 draws, wall-clock timestamps, network responses,
backend replies) are passed as explicit arguments.  Exceptions are
modelled with `Except`.
-/

set_option maxRecDepth 4000

namespace QMO

/-! ## SHA-256 (as used through Python's `hashlib.sha256(...)`)

A byte is a `Nat < 256`; a word is a `Nat < 2 ^ 32`.  All functions are
structurally recursive so that concrete digests evaluate inside the
kernel. -/

/-- `2 ^ 32`, the word modulus of SHA-256. -/
def pow32 : Nat := 4294967296

/-- Right rotation of a 32-bit word (input assumed `< 2 ^ 32`). -/
def rotr (n x : Nat) : Nat := ((x >>> n) ||| (x <<< (32 - n))) % pow32

/-- Addition modulo `2 ^ 32`. -/
def add32 (a b : Nat) : Nat := (a + b) % pow32

/-- The SHA-256 round constants. -/
def shaK : List Nat :=
  [1116352408, 1899447441, 3049323471, 3921009573, 961987163,
   1508970993, 2453635748, 2870763221, 3624381080, 310598401,
   607225278, 1426881987, 1925078388, 2162078206, 2614888103,
   3248222580, 3835390401, 4022224774, 264347078, 604807628,
   770255983, 1249150122, 1555081692, 1996064986, 2554220882,
   2821834349, 2952996808, 3210313671, 3336571891, 3584528711,
   113926993, 338241895, 666307205, 773529912, 1294757372,
   1396182291, 1695183700, 1986661051, 2177026350, 2456956037,
   2730485921, 2820302411, 3259730800, 3345764771, 3516065817,
   3600352804, 4094571909, 275423344, 430227734, 506948616,
   659060556, 883997877, 958139571, 1322822218, 1537002063,
   1747873779, 1955562222, 2024104815, 2227730452, 2361852424,
   2428436474, 2756734187, 3204031479, 3329325298]

/-- The eight-word working state of the compression function. -/
structure Hash8 where
  a : Nat
  b : Nat
  c : Nat
  d : Nat
  e : Nat
  f : Nat
  g : Nat
  h : Nat
deriving Repr, DecidableEq

/-- The SHA-256 initial hash value. -/
def shaH0 : Hash8 :=
  ⟨1779033703, 3144134277, 1013904242, 2773480762,
   1359893119, 2600822924, 528734635, 1541459225⟩

/-- Group a byte list into big-endian 32-bit words (4 bytes per word). -/
def wordsOfBytes : List Nat → List Nat
  | b0 :: b1 :: b2 :: b3 :: rest =>
      (((b0 * 256 + b1) * 256 + b2) * 256 + b3) :: wordsOfBytes rest
  | _ => []

/-- Split a word list into blocks of 16 words (one 512-bit block each). -/
def chunks16 : List Nat → List (List Nat)
  | w0 :: w1 :: w2 :: w3 :: w4 :: w5 :: w6 :: w7 ::
    w8 :: w9 :: w10 :: w11 :: w12 :: w13 :: w14 :: w15 :: rest =>
      [w0, w1, w2, w3, w4, w5, w6, w7, w8, w9, w10, w11, w12, w13, w14, w15]
        :: chunks16 rest
  | _ => []

/-- Message-schedule word `w[i]` from the four earlier schedule words. -/
def scheduleWord (w : List Nat) : Nat :=
  let i := w.length
  let s0 :=
    let x := w.getD (i - 15) 0
    (rotr 7 x ^^^ rotr 18 x) ^^^ (x >>> 3)
  let s1 :=
    let x := w.getD (i - 2) 0
    (rotr 17 x ^^^ rotr 19 x) ^^^ (x >>> 10)
  (((w.getD (i - 16) 0 + s0) % pow32 + w.getD (i - 7) 0 + s1) % pow32)

/-- Extend the 16 block words by `k` further schedule words. -/
def extendSchedule : Nat → List Nat → List Nat
  | 0, w => w
  | k + 1, w => extendSchedule k (w ++ [scheduleWord w])

/-- One round of the SHA-256 compression function. -/
def compressStep (st : Hash8) (kw : Nat × Nat) : Hash8 :=
  let s1 := (rotr 6 st.e ^^^ rotr 11 st.e) ^^^ rotr 25 st.e
  let ch := (st.e &&& st.f) ^^^ ((st.e ^^^ (pow32 - 1)) &&& st.g)
  let temp1 := (st.h + s1 + ch + kw.1 + kw.2) % pow32
  let s0 := (rotr 2 st.a ^^^ rotr 13 st.a) ^^^ rotr 22 st.a
  let mj := ((st.a &&& st.b) ^^^ (st.a &&& st.c)) ^^^ (st.b &&& st.c)
  let temp2 := (s0 + mj) % pow32
  ⟨(temp1 + temp2) % pow32, st.a, st.b, st.c,
   (st.d + temp1) % pow32, st.e, st.f, st.g⟩

/-- Process one 512-bit block. -/
def compressBlock (h0 : Hash8) (block : List Nat) : Hash8 :=
  let w := extendSchedule 48 block
  let st := (shaK.zip w).foldl compressStep h0
  ⟨add32 h0.a st.a, add32 h0.b st.b, add32 h0.c st.c, add32 h0.d st.d,
   add32 h0.e st.e, add32 h0.f st.f, add32 h0.g st.g, add32 h0.h st.h⟩

/-- Big-endian byte expansion of `n` into `len` bytes. -/
def natToBytesBE : Nat → Nat → List Nat
  | _, 0 => []
  | n, len + 1 => natToBytesBE (n / 256) len ++ [n % 256]

/-- SHA-256 padding: a `0x80` byte, zeros to 56 mod 64, then the
bit length as 8 big-endian bytes. -/
def sha256pad (msg : List Nat) : List Nat :=
  let l := msg.length
  let zeros := (119 - l % 64) % 64
  msg ++ [0x80] ++ List.replicate zeros 0 ++ natToBytesBE (8 * l) 8

/-- SHA-256 digest of a byte list, as eight 32-bit words. -/
def sha256Words (msg : List Nat) : List Nat :=
  let final := (chunks16 (wordsOfBytes (sha256pad msg))).foldl compressBlock shaH0
  [final.a, final.b, final.c, final.d, final.e, final.f, final.g, final.h]

/-- Lower-case hexadecimal digit. -/
def hexChar (n : Nat) : Char :=
  if n < 10 then Char.ofNat (48 + n) else Char.ofNat (87 + (n % 16))

/-- A 32-bit word as 8 lower-case hex characters. -/
def wordHex (w : Nat) : String :=
  String.mk ((List.range 8).map fun i => hexChar ((w >>> (28 - 4 * i)) &&& 15))

/-- UTF-8 encoding of one character (code point to bytes). -/
def utf8Char (c : Char) : List Nat :=
  let n := c.toNat
  if n < 0x80 then [n]
  else if n < 0x800 then [0xc0 + n / 64, 0x80 + n % 64]
  else if n < 0x10000 then
    [0xe0 + n / 4096, 0x80 + (n / 64) % 64, 0x80 + n % 64]
  else
    [0xf0 + n / 262144, 0x80 + (n / 4096) % 64, 0x80 + (n / 64) % 64,
     0x80 + n % 64]

/-- UTF-8 encoding of a string, as the Python `str.encode` used by the
source before hashing. -/
def utf8Encode (s : String) : List Nat := (s.data.map utf8Char).flatten

/-- Hex digest of the SHA-256 of the UTF-8 encoding of a string:
the embedding of `hashlib.sha256(s.encode()).hexdigest()`. -/
def sha256hex (s : String) : String :=
  String.join ((sha256Words (utf8Encode s)).map wordHex)

/-- Implementation check: the digest of the empty string matches the
published SHA-256 test vector. -/
theorem sha256hex_empty :
    sha256hex "" =
      "e3b0c44298fc1c149afbf4c8996fb92427ae41e4649b934ca495991b7852b855" := by
  decide

/-- Implementation check: the digest of `"abc"` matches the published
SHA-256 test vector. -/
theorem sha256hex_abc :
    sha256hex "abc" =
      "ba7816bf8f01cfea414140de5dae2223b00361a396177a9cb410ff61f20015ad" := by
  decide

/-! ## Canonical JSON serialization

`_create_audit_entry` hashes `json.dumps(audit_entry, sort_keys=True)`.
We embed Python's `json.dumps` string escaping (default `ensure_ascii`)
and build the canonical object strings with their keys in the sorted
order `json.dumps(..., sort_keys=True)` produces. -/

/-- Four-digit hexadecimal form of a code unit (for `\uXXXX` escapes). -/
def hex4 (n : Nat) : String :=
  String.mk ((List.range 4).map fun i => hexChar ((n >>> (12 - 4 * i)) &&& 15))

/-- Escape one character as Python's `json.dumps` (with `ensure_ascii`)
does inside a JSON string literal. -/
def jsonEscapeChar (c : Char) : String :=
  if c = '"' then "\\\""
  else if c = '\\' then "\\\\"
  else if c = '\n' then "\\n"
  else if c = '\r' then "\\r"
  else if c = '\t' then "\\t"
  else if c = Char.ofNat 8 then "\\b"
  else if c = Char.ofNat 12 then "\\f"
  else if 0x20 ≤ c.toNat ∧ c.toNat ≤ 0x7e then String.singleton c
  else if c.toNat < 0x10000 then "\\u" ++ hex4 c.toNat
  else
    "\\u" ++ hex4 (0xd800 + (c.toNat - 0x10000) / 1024) ++
    "\\u" ++ hex4 (0xdc00 + (c.toNat - 0x10000) % 1024)

/-- A JSON string literal, Python-style. -/
def jsonStr (s : String) : String :=
  "\"" ++ String.join (s.data.map jsonEscapeChar) ++ "\""

/-- A JSON array of string literals. -/
def jsonStrList (xs : List String) : String :=
  "[" ++ String.intercalate ", " (xs.map jsonStr) ++ "]"

/-! ## The audit chain (`_create_audit_entry`, `_verify_audit_chain`)

An `AuditEntryCore` holds the nine fields assembled before the entry
hash exists (quantum_memory.py lines 260-270); `entry_hash` is the
SHA-256 of the canonical JSON of those fields (lines 272-274). -/

/-- The fields of an audit entry that are covered by `entry_hash`. -/
structure AuditEntryCore where
  id : String
  case_id : String
  operation : String
  data_hash : String
  timestamp_hst : String
  timestamp_utc : String
  chain_index : Nat
  previous_hash : String
  result_status : String
deriving Repr, DecidableEq

/-- `json.dumps(audit_entry, sort_keys=True)` of the nine hashed fields:
keys in sorted order, default `", "` / `": "` separators. -/
def entryCanonicalString (c : AuditEntryCore) : String :=
  "\x7b\"case_id\": " ++ jsonStr c.case_id ++
  ", \"chain_index\": " ++ Nat.repr c.chain_index ++
  ", \"data_hash\": " ++ jsonStr c.data_hash ++
  ", \"id\": " ++ jsonStr c.id ++
  ", \"operation\": " ++ jsonStr c.operation ++
  ", \"previous_hash\": " ++ jsonStr c.previous_hash ++
  ", \"result_status\": " ++ jsonStr c.result_status ++
  ", \"timestamp_hst\": " ++ jsonStr c.timestamp_hst ++
  ", \"timestamp_utc\": " ++ jsonStr c.timestamp_utc ++ "\x7d"

/-- A completed audit entry: the hashed core plus its own hash. -/
structure AuditEntry extends AuditEntryCore where
  entry_hash : String
deriving Repr, DecidableEq

/-- The optional `result` argument of `_create_audit_entry`: absent,
an exception instance, or a value with the given truthiness. -/
inductive AuditResult where
  | noneRes : AuditResult
  | excRes : AuditResult
  | valRes (truthy : Bool) : AuditResult
deriving Repr, DecidableEq

/-- Line 269: `'success' if result and not isinstance(result, Exception)
else 'pending'`. -/
def auditResultStatus : AuditResult → String
  | .valRes true => "success"
  | _ => "pending"

/-- External inputs of one `_create_audit_entry` call: the uuid4 draw,
the orchestrator's `case_id`, the operation name, the canonical JSON of
the `data` dict (whose SHA-256 becomes `data_hash`), both timestamp
strings, and the optional `result`. -/
structure AppendCall where
  entryId : String
  caseId : String
  operation : String
  dataJson : String
  tsHst : String
  tsUtc : String
  result : AuditResult
deriving Repr, DecidableEq

/-- Line 268: `self.audit_chain[-1]['entry_hash'] if self.audit_chain
else '0'`. -/
def prevHash (chain : List AuditEntry) : String :=
  match chain.getLast? with
  | some e => e.entry_hash
  | none => "0"

/-- The entry built by `_create_audit_entry` from the current chain:
all fields except `entry_hash` first (with `chain_index = len(chain)`
and `previous_hash` from the last entry), then `entry_hash` as the
SHA-256 of the canonical JSON of those fields. -/
def mkAuditEntry (chain : List AuditEntry) (c : AppendCall) : AuditEntry :=
  let core : AuditEntryCore :=
    { id := c.entryId
      case_id := c.caseId
      operation := c.operation
      data_hash := sha256hex c.dataJson
      timestamp_hst := c.tsHst
      timestamp_utc := c.tsUtc
      chain_index := chain.length
      previous_hash := prevHash chain
      result_status := auditResultStatus c.result }
  { toAuditEntryCore := core, entry_hash := sha256hex (entryCanonicalString core) }

/-- `_create_audit_entry`'s effect on `self.audit_chain`: append the new
entry (line 276). -/
def appendAudit (chain : List AuditEntry) (c : AppendCall) : List AuditEntry :=
  chain ++ [mkAuditEntry chain c]

/-- Run a sequence of `_create_audit_entry` calls from a given chain. -/
def runAppendsFrom (chain : List AuditEntry) (calls : List AppendCall) :
    List AuditEntry :=
  calls.foldl appendAudit chain

/-- Run a sequence of `_create_audit_entry` calls from the empty chain
(the constructor sets `self.audit_chain = []`). -/
def runAppends (calls : List AppendCall) : List AuditEntry :=
  runAppendsFrom [] calls

/-- `_verify_audit_chain` (lines 595-608): walk the chain from index 1
and compare each entry's `previous_hash` with the previous entry's
`entry_hash`; return `False` at the first mismatch, else `True`.  The
loop body performs only field reads, so the `except` branch (which
would also return `False`) is unreachable on structured entries. -/
def verifyAuditChain : List AuditEntry → Bool
  | e1 :: e2 :: rest =>
      (e2.previous_hash == e1.entry_hash) && verifyAuditChain (e2 :: rest)
  | _ => true

/-- The observable outcome of calling `_verify_audit_chain`, with an
explicit channel for a raised exception.  The Python body returns a
plain boolean on every path — a mismatch executes `return False`
(line 604) and the blanket `except Exception` handler (lines 606-608)
converts any internal error into `return False` as well — so the
outcome is always `Except.ok` of the boolean verdict; no
`ChainIntegrityError` (or any other exception) ever escapes. -/
def verifyAuditChainOutcome (chain : List AuditEntry) : Except String Bool :=
  Except.ok (verifyAuditChain chain)

/-- The adjacent-link property `chain[i].previous_hash =
chain[i-1].entry_hash` for all valid `i > 0`. -/
def ChainLinks (chain : List AuditEntry) : Prop :=
  ∀ i (h1 : i + 1 < chain.length) (h2 : i < chain.length),
    (chain.get ⟨i + 1, h1⟩).previous_hash = (chain.get ⟨i, h2⟩).entry_hash

theorem chainLinks_nil : ChainLinks [] := by
  intro i h1 _
  simp at h1

theorem chainLinks_singleton (e : AuditEntry) : ChainLinks [e] := by
  intro i h1 _
  simp at h1

theorem chainLinks_cons_cons (a b : AuditEntry) (l : List AuditEntry) :
    ChainLinks (a :: b :: l) ↔
      b.previous_hash = a.entry_hash ∧ ChainLinks (b :: l) := by
  constructor
  · intro h
    refine ⟨h 0 (by simp) (by simp), ?_⟩
    intro i h1 h2
    exact h (i + 1) (by simpa using h1) (by simpa using h2)
  · rintro ⟨hb, hl⟩ i h1 h2
    match i with
    | 0 => exact hb
    | i + 1 => exact hl i (by simpa using h1) (by simpa using h2)

/-- `_verify_audit_chain` returns `True` exactly when every adjacent
link of the chain matches. -/
theorem verifyAuditChain_eq_true_iff (chain : List AuditEntry) :
    verifyAuditChain chain = true ↔ ChainLinks chain := by
  match chain with
  | [] => simpa [verifyAuditChain] using chainLinks_nil
  | [e] => simpa [verifyAuditChain] using chainLinks_singleton e
  | a :: b :: l =>
      rw [chainLinks_cons_cons]
      have ih := verifyAuditChain_eq_true_iff (b :: l)
      simp only [verifyAuditChain, Bool.and_eq_true, beq_iff_eq]
      rw [ih]

/-- The chain invariant maintained by `_create_audit_entry`: adjacent
links match, `chain_index` equals the position, and the first entry
carries the sentinel `previous_hash = "0"`. -/
def ChainInv (chain : List AuditEntry) : Prop :=
  ChainLinks chain ∧
  (∀ i (h : i < chain.length), (chain.get ⟨i, h⟩).chain_index = i) ∧
  (∀ h : 0 < chain.length, (chain.get ⟨0, h⟩).previous_hash = "0")

theorem chainInv_nil : ChainInv [] := by
  refine ⟨chainLinks_nil, ?_, ?_⟩
  · intro i h
    simp at h
  · intro h
    simp at h

theorem prevHash_eq_get (l : List AuditEntry) (h2 : l.length - 1 < l.length) :
    prevHash l = (l.get ⟨l.length - 1, h2⟩).entry_hash := by
  unfold prevHash
  rw [List.getLast?_eq_getElem?, List.getElem?_eq_getElem h2]
  simp [List.get_eq_getElem]

/-- Appending an entry whose `previous_hash` and `chain_index` are
taken from the current chain preserves the chain invariant. -/
theorem chainInv_snoc (c : List AuditEntry) (e : AuditEntry)
    (hInv : ChainInv c) (hprev : e.previous_hash = prevHash c)
    (hidx : e.chain_index = c.length) : ChainInv (c ++ [e]) := by
  obtain ⟨hlinks, hidxs, hhead⟩ := hInv
  refine ⟨?_, ?_, ?_⟩
  · intro i h1 h2
    have h1l : i + 1 < c.length + 1 := by simpa using h1
    simp only [List.get_eq_getElem]
    by_cases hi : i + 1 < c.length
    · rw [List.getElem_append_left hi,
        List.getElem_append_left (by omega : i < c.length)]
      simpa [List.get_eq_getElem] using hlinks i hi (by omega)
    · obtain rfl : i = c.length - 1 := by omega
      have hie : c.length - 1 + 1 = c.length := by omega
      rw [List.getElem_concat_length c e (c.length - 1 + 1) hie,
        List.getElem_append_left (by omega : c.length - 1 < c.length), hprev,
        prevHash_eq_get c (by omega)]
      simp [List.get_eq_getElem]
  · intro i h1
    have h1l : i < c.length + 1 := by simpa using h1
    simp only [List.get_eq_getElem]
    by_cases hi : i < c.length
    · rw [List.getElem_append_left hi]
      simpa [List.get_eq_getElem] using hidxs i hi
    · have hie : i = c.length := by omega
      rw [List.getElem_concat_length c e i hie, hidx, hie]
  · intro h1
    simp only [List.get_eq_getElem]
    match c with
    | [] =>
        simp [hprev, prevHash]
    | x :: xs =>
        rw [List.getElem_append_left (by simp : 0 < (x :: xs).length)]
        simpa [List.get_eq_getElem] using hhead (by simp)

/-- One `_create_audit_entry` call preserves the chain invariant. -/
theorem appendAudit_inv (c : List AuditEntry) (call : AppendCall)
    (h : ChainInv c) : ChainInv (appendAudit c call) :=
  chainInv_snoc c (mkAuditEntry c call) h rfl rfl

theorem runAppendsFrom_inv (calls : List AppendCall) (c : List AuditEntry)
    (h : ChainInv c) : ChainInv (runAppendsFrom c calls) := by
  induction calls generalizing c with
  | nil => exact h
  | cons x xs ih => exact ih (appendAudit c x) (appendAudit_inv c x h)

theorem runAppends_inv (calls : List AppendCall) :
    ChainInv (runAppends calls) :=
  runAppendsFrom_inv calls [] chainInv_nil

/-- Appending never rewrites history: running further calls only adds a
suffix to the existing chain. -/
theorem runAppendsFrom_extends (calls : List AppendCall)
    (c : List AuditEntry) :
    ∃ suffix, runAppendsFrom c calls = c ++ suffix := by
  induction calls generalizing c with
  | nil => exact ⟨[], by simp [runAppendsFrom]⟩
  | cons x xs ih =>
      obtain ⟨s, hs⟩ := ih (appendAudit c x)
      refine ⟨mkAuditEntry c x :: s, ?_⟩
      have hstep : runAppendsFrom c (x :: xs) = runAppendsFrom (appendAudit c x) xs := rfl
      rw [hstep, hs]
      simp [appendAudit]

/-- External inputs for two concrete audit appends, used by the
concrete evaluations below. -/
def demoCall1 : AppendCall :=
  { entryId := "11111111-1111-1111-1111-111111111111"
    caseId := "1FDV-23-0001009"
    operation := "store_memory_unified"
    dataJson := "\x7b\"content_hash\": \"abc\", \"content_length\": 3\x7d"
    tsHst := "2025-10-18 01:02:03 HST"
    tsUtc := "2025-10-18 11:02:03 UTC"
    result := .noneRes }

def demoCall2 : AppendCall :=
  { entryId := "22222222-2222-2222-2222-222222222222"
    caseId := "1FDV-23-0001009"
    operation := "search_memory_unified"
    dataJson := "\x7b\"limit\": 20, \"query\": \"evidence\"\x7d"
    tsHst := "2025-10-18 01:05:03 HST"
    tsUtc := "2025-10-18 11:05:03 UTC"
    result := .noneRes }

def demoCalls : List AppendCall := [demoCall1, demoCall2]

/-- The audit chain produced by the two concrete appends. -/
def chainC1 : List AuditEntry := runAppends demoCalls

/-- `chainC1` with a hashed field (`operation`) of the first entry
mutated after its append — the mutation the tamper-evidence property
is supposed to detect. -/
def tamperedChainC1 : List AuditEntry :=
  match chainC1 with
  | e0 :: rest => { e0 with operation := "tampered_operation" } :: rest
  | [] => []

/-- C1 is false on the code: mutating a field covered by `entry_hash`
(`operation` of entry 0) after its append leaves `_verify_audit_chain`
returning `True`, because verification only compares each
`previous_hash` with the prior `entry_hash` and never recomputes any
entry's hash.  The first conjunct shows a hashed field of an appended
entry really was mutated; the second shows `verify()` still accepts. -/
theorem C1_counterexample :
    (tamperedChainC1.map (fun e => e.operation) ≠
      chainC1.map (fun e => e.operation))
    ∧ verifyAuditChain tamperedChainC1 = true := by
  constructor
  · decide
  · decide

/-- C1 (amended): `_verify_audit_chain` returns `True` iff every
adjacent `previous_hash`/`entry_hash` link matches — so it detects
mutations of the link fields, but not mutations of the other hashed
fields — and every un-mutated sequence of appends verifies. -/
theorem C1_verify_characterization :
    (∀ chain : List AuditEntry,
        verifyAuditChain chain = true ↔ ChainLinks chain)
    ∧ (∀ calls : List AppendCall,
        verifyAuditChain (runAppends calls) = true) :=
  ⟨verifyAuditChain_eq_true_iff,
   fun calls => (verifyAuditChain_eq_true_iff _).mpr (runAppends_inv calls).1⟩

/-- Concrete instance of the amended C1: the untampered two-entry
chain passes verification. -/
theorem C1_witness : verifyAuditChain (runAppends demoCalls) = true :=
  C1_verify_characterization.2 demoCalls

/-- C2: after any sequence of `_create_audit_entry` calls, every
adjacent link matches, the first entry's `previous_hash` is the
sentinel `"0"`, every entry's `chain_index` is its 0-based position,
and later appends only extend the chain (no entry is mutated or
removed). -/
theorem C2_chain_invariants (calls : List AppendCall) :
    (∀ i (h1 : i + 1 < (runAppends calls).length)
        (h2 : i < (runAppends calls).length),
      ((runAppends calls).get ⟨i + 1, h1⟩).previous_hash =
        ((runAppends calls).get ⟨i, h2⟩).entry_hash)
    ∧ (∀ h : 0 < (runAppends calls).length,
        ((runAppends calls).get ⟨0, h⟩).previous_hash = "0")
    ∧ (∀ i (h : i < (runAppends calls).length),
        ((runAppends calls).get ⟨i, h⟩).chain_index = i)
    ∧ (∀ more : List AppendCall, ∃ suffix,
        runAppends (calls ++ more) = runAppends calls ++ suffix) := by
  obtain ⟨hlinks, hidx, hhead⟩ := runAppends_inv calls
  refine ⟨hlinks, hhead, hidx, ?_⟩
  intro more
  have : runAppends (calls ++ more) = runAppendsFrom (runAppends calls) more := by
    unfold runAppends runAppendsFrom
    exact List.foldl_append ..
  rw [this]
  exact runAppendsFrom_extends more (runAppends calls)

/-- Concrete instance of C2 on the two-entry chain: link, sentinel and
index facts evaluated at indices 0 and 1. -/
theorem C2_witness :
    ((runAppends demoCalls).get ⟨1, by decide⟩).previous_hash =
      ((runAppends demoCalls).get ⟨0, by decide⟩).entry_hash
    ∧ ((runAppends demoCalls).get ⟨0, by decide⟩).previous_hash = "0"
    ∧ ((runAppends demoCalls).get ⟨1, by decide⟩).chain_index = 1 :=
  ⟨(C2_chain_invariants demoCalls).1 0 (by decide) (by decide),
   (C2_chain_invariants demoCalls).2.1 (by decide),
   (C2_chain_invariants demoCalls).2.2.1 1 (by decide)⟩

/-- `chainC1` with the link field `previous_hash` of the second entry
overwritten — a broken chain for exercising `verify()`'s failure
report. -/
def brokenChainC9 : List AuditEntry :=
  match chainC1 with
  | e0 :: e1 :: rest => e0 :: { e1 with previous_hash := "deadbeef" } :: rest
  | l => l

/-- C9 is false on the code: on a chain with a broken link,
`_verify_audit_chain` returns the plain boolean `False` to its caller —
the outcome is `Except.ok false`, not a raised `ChainIntegrityError`
(no such exception class exists anywhere in the source; the function's
own `except` clause even converts internal errors into `return
False`). -/
theorem C9_counterexample :
    verifyAuditChain brokenChainC9 = false
    ∧ verifyAuditChainOutcome brokenChainC9 = Except.ok false := by
  have h : verifyAuditChain brokenChainC9 = false := by decide
  exact ⟨h, by simp [verifyAuditChainOutcome, h]⟩

/-- C9 (amended): a chain-integrity failure is reported to the caller
of `verify()` as the returned boolean `False`, never as an exception:
the call's outcome is always `Except.ok` of the verdict, and the
verdict is `false` exactly when some adjacent link is broken. -/
theorem C9_verify_reports_bool (chain : List AuditEntry) :
    verifyAuditChainOutcome chain = Except.ok (verifyAuditChain chain)
    ∧ (verifyAuditChainOutcome chain = Except.ok false ↔ ¬ ChainLinks chain) := by
  refine ⟨rfl, ?_⟩
  constructor
  · intro h hlinks
    have hv := (verifyAuditChain_eq_true_iff chain).mpr hlinks
    simp [verifyAuditChainOutcome, hv] at h
  · intro h
    have hv : verifyAuditChain chain = false := by
      cases hv : verifyAuditChain chain
      · rfl
      · exact absurd ((verifyAuditChain_eq_true_iff chain).mp hv) h
    simp [verifyAuditChainOutcome, hv]

/-- Concrete instance of the amended C9: on the two-entry demo chain
the outcome of `verify()` is the returned boolean verdict. -/
theorem C9_witness :
    verifyAuditChainOutcome chainC1 = Except.ok (verifyAuditChain chainC1) :=
  (C9_verify_reports_bool chainC1).1

/-! ## Data model of the federation engine

Embeddings of `MemoryMetadata`, `MemoryProvider`, the orchestrator
state (`audit_chain`, `metrics`) and the per-backend result dicts. -/

/-- `MemoryPriority` (quantum_memory.py lines 57-62). -/
inductive MemoryPriority where
  | critical : MemoryPriority
  | high : MemoryPriority
  | medium : MemoryPriority
  | low : MemoryPriority
deriving Repr, DecidableEq

/-- The enum's `.value`. -/
def MemoryPriority.value : MemoryPriority → String
  | .critical => "critical"
  | .high => "high"
  | .medium => "medium"
  | .low => "low"

/-- Python's `str()` of the enum member, which is what
`json.dumps(..., default=str)` emits for it. -/
def MemoryPriority.pyStr : MemoryPriority → String
  | .critical => "MemoryPriority.CRITICAL"
  | .high => "MemoryPriority.HIGH"
  | .medium => "MemoryPriority.MEDIUM"
  | .low => "MemoryPriority.LOW"

/-- `MemoryProvider` (lines 71-76). -/
inductive MemoryProvider where
  | mem0 : MemoryProvider
  | supermemory : MemoryProvider
  | memoryPlugin : MemoryProvider
  | all : MemoryProvider
deriving Repr, DecidableEq

/-- The enum's `.value`. -/
def MemoryProvider.value : MemoryProvider → String
  | .mem0 => "mem0"
  | .supermemory => "supermemory"
  | .memoryPlugin => "memory_plugin"
  | .all => "all"

/-- `MemoryMetadata` (lines 78-97).  `relations` is an open key/value
map whose values we model as strings. -/
structure MemoryMetadata where
  case_id : String := "1FDV-23-0001009"
  priority : MemoryPriority := .critical
  source : String := "quantum-orchestrator"
  hash_sha256 : String := ""
  timestamp_hst : String := ""
  timestamp_utc : String := ""
  chain_of_custody : List String := []
  tags : List String := []
  relations : List (String × String) := []
deriving Repr, DecidableEq

/-- A JSON object of string values (keys are kept in the sorted order
`json.dumps(..., sort_keys=True)` would emit; the builders below list
them sorted). -/
def jsonStrObj (kvs : List (String × String)) : String :=
  "\x7b" ++
    String.intercalate ", " (kvs.map fun kv => jsonStr kv.1 ++ ": " ++ jsonStr kv.2)
    ++ "\x7d"

/-- `json.dumps(asdict(metadata), sort_keys=True, default=str)`: the
nine dataclass fields in sorted key order; the enum `priority` goes
through `default=str`. -/
def metadataJson (md : MemoryMetadata) : String :=
  "\x7b\"case_id\": " ++ jsonStr md.case_id ++
  ", \"chain_of_custody\": " ++ jsonStrList md.chain_of_custody ++
  ", \"hash_sha256\": " ++ jsonStr md.hash_sha256 ++
  ", \"priority\": " ++ jsonStr md.priority.pyStr ++
  ", \"relations\": " ++ jsonStrObj md.relations ++
  ", \"source\": " ++ jsonStr md.source ++
  ", \"tags\": " ++ jsonStrList md.tags ++
  ", \"timestamp_hst\": " ++ jsonStr md.timestamp_hst ++
  ", \"timestamp_utc\": " ++ jsonStr md.timestamp_utc ++ "\x7d"

/-- Which providers were successfully initialized
(`self.providers`; `_initialize_providers`, lines 226-248). -/
structure ProvidersAvailable where
  mem0 : Bool
  supermemory : Bool
deriving Repr, DecidableEq

/-- The process-wide counters of `self.metrics` that the store/search
paths update (lines 209-218). -/
structure Metrics where
  total_memories_stored : Nat := 0
  successful_operations : Nat := 0
  failed_operations : Nat := 0
  search_queries : Nat := 0
deriving Repr, DecidableEq

/-- Orchestrator state threaded through operations: `case_id`, the
audit chain and the metrics counters. -/
structure OrchState where
  caseId : String := "1FDV-23-0001009"
  chain : List AuditEntry := []
  metrics : Metrics := {}
deriving Repr, DecidableEq

/-! ## The unified store path (`store_memory_unified`, lines 281-341)

Backend replies and raised exceptions are inputs: an
`Except String β` is the raw outcome of the awaited backend call
(`.error` models a raised exception). -/

/-- The dict `SuperMemoryClient.store_memory` returns: either the
response JSON (no `error` key) or the caught-error dict
`\x7b'error': ..., 'status': 'failed'\x7d` (lines 136-153).  `body`
stands for the remaining adapter-specific payload. -/
structure SMStoreRet where
  error : Option String := none
  body : String := ""
deriving Repr, DecidableEq

/-- A per-backend store outcome dict, as returned by `_store_mem0` /
`_store_supermemory`: a `status`, the backend name, and the
success/error payload keys each path sets. -/
structure StoreBackendResult where
  status : String
  provider : String
  id : Option String := none
  result : Option SMStoreRet := none
  error : Option String := none
deriving Repr, DecidableEq

/-- `_store_mem0` (lines 343-368): on success return a dict with
`status = 'success'` and `id = result.get('id')`; any exception is
caught and becomes a failed per-backend dict. -/
def storeMem0 (raw : Except String (Option String)) : StoreBackendResult :=
  match raw with
  | .ok mid => { status := "success", id := mid, provider := "mem0" }
  | .error e => { status := "failed", error := some e, provider := "mem0" }

/-- `_store_supermemory` (lines 370-389): success iff the client dict
has no `error` key; exceptions are caught and become failed dicts. -/
def storeSupermemory (raw : Except String SMStoreRet) : StoreBackendResult :=
  match raw with
  | .ok r =>
      if r.error = none then
        { status := "success", result := some r, provider := "supermemory" }
      else
        { status := "failed", error := r.error, provider := "supermemory" }
  | .error e => { status := "failed", error := some e, provider := "supermemory" }

/-- The nondeterministic externals of one `store_memory_unified` call:
the audit entry's uuid4 draw and timestamps, and the timestamps stamped
into the metadata (the code calls `datetime.now` separately in the two
places). -/
structure StoreExternal where
  auditId : String
  auditTsHst : String
  auditTsUtc : String
  mdTsHst : String
  mdTsUtc : String
  nowIso : String
deriving Repr, DecidableEq

/-- `json.dumps(audit_data, sort_keys=True, default=str)` for the store
path's `audit_data` dict (lines 296-301), keys in sorted order. -/
def storeAuditDataJson (content contentHash : String) (md : MemoryMetadata)
    (provider : MemoryProvider) : String :=
  "\x7b\"content_hash\": " ++ jsonStr contentHash ++
  ", \"content_length\": " ++ Nat.repr content.length ++
  ", \"metadata\": " ++ metadataJson md ++
  ", \"provider\": " ++ jsonStr provider.value ++ "\x7d"

/-- The `results` dict built in `store_memory_unified` lines 304-313:
each backend is dispatched exactly when it was selected
(`provider == ALL or provider == <that backend>`) and its provider is
initialized, with the raw backend outcome going through the
exception-catching wrapper.  The insertion order is mem0 first, then
supermemory, as in the source. -/
def storeDispatch (provider : MemoryProvider) (avail : ProvidersAvailable)
    (rawMem0 : Except String (Option String)) (rawSM : Except String SMStoreRet) :
    List (String × StoreBackendResult) :=
  (if (provider == .all || provider == .mem0) && avail.mem0 then
    [("mem0", storeMem0 rawMem0)]
  else []) ++
  (if (provider == .all || provider == .supermemory) && avail.supermemory then
    [("supermemory", storeSupermemory rawSM)]
  else [])

/-- Lines 317 and 326: `success_count = sum(1 for r in results.values()
if r.get('status') != 'failed')` and `'success' if success_count > 0
else 'failed'`. -/
def storeAggregateStatus (results : List (String × StoreBackendResult)) : String :=
  if results.countP (fun r => r.2.status != "failed") > 0 then "success"
  else "failed"

/-- The dict `store_memory_unified` returns (lines 324-333). -/
structure StoreResponse where
  operation : String
  status : String
  content_hash : String
  audit_chain_index : Nat
  providers_used : List String
  results : List (String × StoreBackendResult)
  metadata : MemoryMetadata
  timestamp : String
deriving Repr, DecidableEq

/-- `store_memory_unified` (lines 281-341): stamp forensic metadata,
append the intent audit entry, dispatch to each selected and available
provider through the exception-catching wrappers, count the
non-failed per-backend results, update the metrics, and return
`status = 'success'` iff at least one backend did not fail, else
`'failed'`.  `rawMem0` / `rawSM` are the raw outcomes of the awaited
backend calls (consumed only if that backend is dispatched). -/
def storeMemoryUnified (st : OrchState) (ext : StoreExternal)
    (content : String) (mdIn : MemoryMetadata) (provider : MemoryProvider)
    (avail : ProvidersAvailable) (rawMem0 : Except String (Option String))
    (rawSM : Except String SMStoreRet) : OrchState × StoreResponse :=
  let contentHash := sha256hex content
  let md : MemoryMetadata :=
    { mdIn with
      hash_sha256 := contentHash
      timestamp_hst := ext.mdTsHst
      timestamp_utc := ext.mdTsUtc
      chain_of_custody :=
        mdIn.chain_of_custody ++ ["stored_by_orchestrator_" ++ ext.nowIso] }
  let call : AppendCall :=
    { entryId := ext.auditId
      caseId := st.caseId
      operation := "store_memory_unified"
      dataJson := storeAuditDataJson content contentHash md provider
      tsHst := ext.auditTsHst
      tsUtc := ext.auditTsUtc
      result := .noneRes }
  let auditEntry := mkAuditEntry st.chain call
  let results := storeDispatch provider avail rawMem0 rawSM
  let successCount := results.countP fun r => r.2.status != "failed"
  let metrics2 : Metrics :=
    { st.metrics with
      total_memories_stored := st.metrics.total_memories_stored + 1
      successful_operations :=
        st.metrics.successful_operations + (if successCount > 0 then 1 else 0)
      failed_operations :=
        st.metrics.failed_operations + (if successCount > 0 then 0 else 1) }
  ({ st with chain := st.chain ++ [auditEntry], metrics := metrics2 },
   { operation := "store_memory_unified"
     status := storeAggregateStatus results
     content_hash := contentHash
     audit_chain_index := auditEntry.chain_index
     providers_used := results.map (·.1)
     results := results
     metadata := md
     timestamp := ext.nowIso })

/-! ## The unified search path and the result merger -/

/-- One raw result dict returned by a backend search.  The merger reads
`result.get('content', result.get('text', ''))`; the remaining payload
is carried in `extra`. -/
structure SearchItem where
  content : Option String := none
  text : Option String := none
  itemId : Option String := none
  extra : List (String × String) := []
deriving Repr, DecidableEq

/-- Line 492: `str(result.get('content', result.get('text', '')))`. -/
def contentStr (r : SearchItem) : String :=
  match r.content with
  | some c => c
  | none => r.text.getD ""

/-- A per-provider search outcome dict, as returned by `_search_mem0` /
`_search_supermemory` (status, result list, error, provider name). -/
structure ProviderSearchResult where
  status : String
  results : List SearchItem := []
  error : Option String := none
  provider : String
deriving Repr, DecidableEq

/-- What the raw Mem0 `search` call produced: a list, some other
truthy value, or a falsy value (lines 454-458 normalize all three). -/
inductive Mem0SearchRet where
  | listRet (items : List SearchItem) : Mem0SearchRet
  | otherRet (item : SearchItem) : Mem0SearchRet
  | falsyRet : Mem0SearchRet
deriving Repr, DecidableEq

/-- The normalization in `_search_mem0` lines 454-458. -/
def normalizeMem0 : Mem0SearchRet → List SearchItem
  | .listRet items => items
  | .otherRet item => [item]
  | .falsyRet => []

/-- `_search_mem0` (lines 445-465): success with normalized results;
any exception caught and converted into a failed dict with empty
results. -/
def searchMem0 (raw : Except String Mem0SearchRet) : ProviderSearchResult :=
  match raw with
  | .ok ret => { status := "success", results := normalizeMem0 ret, provider := "mem0" }
  | .error e => { status := "failed", error := some e, results := [], provider := "mem0" }

/-- The dict `SuperMemoryClient.search_memory` returns: an `error` key
on caught failure, else the response JSON whose `results` key may be
absent (`result.get('results', [])`). -/
structure SMSearchRet where
  error : Option String := none
  results : Option (List SearchItem) := none
deriving Repr, DecidableEq

/-- `_search_supermemory` (lines 467-481). -/
def searchSupermemory (raw : Except String SMSearchRet) : ProviderSearchResult :=
  match raw with
  | .ok r =>
      if r.error = none then
        { status := "success", results := r.results.getD [], provider := "supermemory" }
      else
        { status := "failed", error := r.error, results := [], provider := "supermemory" }
  | .error e => { status := "failed", error := some e, results := [], provider := "supermemory" }

/-- One element of `_merge_search_results`' output: the first-seen raw
result dict extended with `source_provider` and `content_hash`
(lines 496-500). -/
structure MergedItem where
  item : SearchItem
  source_provider : String
  content_hash : String
deriving Repr, DecidableEq

/-- The inner loop of `_merge_search_results` over one successful
provider's results, threading the `seen_hashes` set (modelled as a
list with membership) and the output accumulator. -/
def mergeItems (provider : String) :
    List SearchItem → List String → List MergedItem →
      List String × List MergedItem
  | [], seen, acc => (seen, acc)
  | r :: rest, seen, acc =>
      let h := sha256hex (contentStr r)
      if seen.contains h then
        mergeItems provider rest seen acc
      else
        mergeItems provider rest (h :: seen)
          (acc ++ [{ item := r, source_provider := provider, content_hash := h }])

/-- The outer loop of `_merge_search_results` over the providers dict
(iterated in insertion order), skipping providers whose status is not
`'success'` (line 489). -/
def mergeProviders :
    List (String × ProviderSearchResult) → List String → List MergedItem →
      List String × List MergedItem
  | [], seen, acc => (seen, acc)
  | (p, pr) :: rest, seen, acc =>
      if pr.status = "success" then
        let sa := mergeItems p pr.results seen acc
        mergeProviders rest sa.1 sa.2
      else
        mergeProviders rest seen acc

/-- `_merge_search_results` (lines 483-504). -/
def mergeSearchResults (results : List (String × ProviderSearchResult)) :
    List MergedItem :=
  (mergeProviders results [] []).2

/-- The nondeterministic externals of one `search_memory_unified`
call. -/
structure SearchExternal where
  auditId : String
  auditTsHst : String
  auditTsUtc : String
  nowIso : String
deriving Repr, DecidableEq

/-- `json.dumps(audit_data, sort_keys=True, default=str)` for the
search path's `audit_data` dict (lines 401-406), keys sorted. -/
def searchAuditDataJson (query caseId : String) (limit : Nat)
    (provider : MemoryProvider) : String :=
  "\x7b\"case_id\": " ++ jsonStr caseId ++
  ", \"limit\": " ++ Nat.repr limit ++
  ", \"provider\": " ++ jsonStr provider.value ++
  ", \"query\": " ++ jsonStr query ++ "\x7d"

/-- The `results` dict built in `search_memory_unified` lines 409-418,
mirroring the store path's selection logic. -/
def searchDispatch (provider : MemoryProvider) (avail : ProvidersAvailable)
    (rawMem0 : Except String Mem0SearchRet) (rawSM : Except String SMSearchRet) :
    List (String × ProviderSearchResult) :=
  (if (provider == .all || provider == .mem0) && avail.mem0 then
    [("mem0", searchMem0 rawMem0)]
  else []) ++
  (if (provider == .all || provider == .supermemory) && avail.supermemory then
    [("supermemory", searchSupermemory rawSM)]
  else [])

/-- The dict `search_memory_unified` returns (lines 426-436). -/
structure SearchResponse where
  operation : String
  query : String
  case_id : String
  audit_chain_index : Nat
  providers_searched : List String
  results_by_provider : List (String × ProviderSearchResult)
  merged_results : List MergedItem
  total_found : Nat
  timestamp : String
deriving Repr, DecidableEq

/-- `search_memory_unified` (lines 391-443): append the intent audit
entry, dispatch to each selected and available provider through the
exception-catching wrappers, bump the search counter, merge and
deduplicate all per-backend result sets, and return the merge
truncated to `limit` (line 433) together with the full merge's size
(`total_found`, line 434). -/
def searchMemoryUnified (st : OrchState) (ext : SearchExternal)
    (query : String) (caseId : Option String) (limit : Nat)
    (provider : MemoryProvider) (avail : ProvidersAvailable)
    (rawMem0 : Except String Mem0SearchRet)
    (rawSM : Except String SMSearchRet) : OrchState × SearchResponse :=
  let searchCaseId :=
    match caseId with
    | some c => if c = "" then st.caseId else c
    | none => st.caseId
  let call : AppendCall :=
    { entryId := ext.auditId
      caseId := st.caseId
      operation := "search_memory_unified"
      dataJson := searchAuditDataJson query searchCaseId limit provider
      tsHst := ext.auditTsHst
      tsUtc := ext.auditTsUtc
      result := .noneRes }
  let auditEntry := mkAuditEntry st.chain call
  let results := searchDispatch provider avail rawMem0 rawSM
  let metrics2 : Metrics :=
    { st.metrics with search_queries := st.metrics.search_queries + 1 }
  let merged := mergeSearchResults results
  ({ st with chain := st.chain ++ [auditEntry], metrics := metrics2 },
   { operation := "search_memory_unified"
     query := query
     case_id := searchCaseId
     audit_chain_index := auditEntry.chain_index
     providers_searched := results.map (·.1)
     results_by_provider := results
     merged_results := merged.take limit
     total_found := merged.length
     timestamp := ext.nowIso })

/-! ## Aggregate status classification (claims C3, C4, C8) -/

theorem storeAggregateStatus_eq_failed_iff
    (l : List (String × StoreBackendResult)) :
    storeAggregateStatus l = "failed" ↔ ∀ x ∈ l, x.2.status = "failed" := by
  unfold storeAggregateStatus
  rcases Nat.eq_zero_or_pos (l.countP fun r => r.2.status != "failed") with h | h
  · rw [if_neg (by omega)]
    have hall := List.countP_eq_zero.mp h
    constructor
    · intro _ x hx
      simpa [bne_iff_ne] using hall x hx
    · intro _
      rfl
  · rw [if_pos h]
    constructor
    · intro hcontra
      exact absurd hcontra (by decide)
    · intro hall
      obtain ⟨a, ha, hp⟩ := List.countP_pos_iff.mp h
      rw [bne_iff_ne] at hp
      exact absurd (hall a ha) hp

theorem storeAggregateStatus_eq_success
    (l : List (String × StoreBackendResult))
    (h : ∃ x ∈ l, x.2.status ≠ "failed") :
    storeAggregateStatus l = "success" := by
  unfold storeAggregateStatus
  rw [if_pos]
  refine List.countP_pos_iff.mpr ?_
  obtain ⟨x, hx, hs⟩ := h
  exact ⟨x, hx, by simpa [bne_iff_ne] using hs⟩

/-- With `provider = ALL` and both providers initialized, the dispatch
list contains exactly the two wrapped per-backend outcomes, mem0
first. -/
theorem storeDispatch_all_avail (rm : Except String (Option String))
    (rs : Except String SMStoreRet) :
    storeDispatch .all ⟨true, true⟩ rm rs =
      [("mem0", storeMem0 rm), ("supermemory", storeSupermemory rs)] := rfl

/-- Concrete externals for the store-path evaluations. -/
def cexStoreExt : StoreExternal :=
  { auditId := "33333333-3333-3333-3333-333333333333"
    auditTsHst := "2025-10-18 01:07:03 HST"
    auditTsUtc := "2025-10-18 11:07:03 UTC"
    mdTsHst := "2025-10-18 01:07:03 HST"
    mdTsUtc := "2025-10-18 11:07:03 UTC"
    nowIso := "2025-10-18T11:07:03+00:00" }

/-- A SuperMemory reply with no `error` key (a successful store). -/
def cexSMStoreRet : SMStoreRet := { body := "stored" }

/-- The response of a store call where the mem0 backend raised and the
supermemory backend succeeded. -/
def cexMixedResp : StoreResponse :=
  (storeMemoryUnified {} cexStoreExt "evidence-17" {} .all ⟨true, true⟩
    (.error "timeout after 3 retries") (.ok cexSMStoreRet)).2

/-- C3 is false on the code: with backend mem0 failing and backend
supermemory succeeding in the same store call, `store_memory_unified`
returns aggregate status `'success'`, not `'partial'` — the code has no
`'partial'` classification at all (line 326).  The succeeding backend's
record is indeed included in `results`. -/
theorem C3_counterexample :
    (storeMem0 (Except.error "timeout after 3 retries")).status = "failed"
    ∧ (storeSupermemory (Except.ok cexSMStoreRet)).status = "success"
    ∧ cexMixedResp.status = "success"
    ∧ cexMixedResp.status ≠ "partial"
    ∧ ("supermemory", storeSupermemory (Except.ok cexSMStoreRet)) ∈
        cexMixedResp.results := by
  refine ⟨rfl, rfl, ?_, ?_, ?_⟩ <;> decide

/-- C3 (amended): when one backend's store fails and the other
succeeds, the aggregate status is `'success'` (there is no `'partial'`
status: every store call is classified `'success'` when at least one
backend did not fail, `'failed'` otherwise), and the succeeding
backend's record is included in the returned results. -/
theorem C3_mixed_outcomes_return_success (st : OrchState)
    (ext : StoreExternal) (content : String) (mdIn : MemoryMetadata)
    (e : String) (r : SMStoreRet) (hr : r.error = none) :
    ((storeMemoryUnified st ext content mdIn .all ⟨true, true⟩
        (Except.error e) (Except.ok r)).2.status = "success")
    ∧ ("supermemory", storeSupermemory (Except.ok r)) ∈
        (storeMemoryUnified st ext content mdIn .all ⟨true, true⟩
          (Except.error e) (Except.ok r)).2.results
    ∧ (storeSupermemory (Except.ok r)).status = "success"
    ∧ (storeMem0 (Except.error e)).status = "failed"
    ∧ (∀ (st2 : OrchState) (ext2 : StoreExternal) (c2 : String)
        (md2 : MemoryMetadata) (p2 : MemoryProvider)
        (av2 : ProvidersAvailable) (rm2 : Except String (Option String))
        (rs2 : Except String SMStoreRet),
        (storeMemoryUnified st2 ext2 c2 md2 p2 av2 rm2 rs2).2.status = "success"
        ∨ (storeMemoryUnified st2 ext2 c2 md2 p2 av2 rm2 rs2).2.status = "failed") := by
  have hsm : (storeSupermemory (Except.ok r)).status = "success" := by
    simp [storeSupermemory, hr]
  refine ⟨?_, ?_, hsm, rfl, ?_⟩
  · show storeAggregateStatus
      (storeDispatch .all ⟨true, true⟩ (Except.error e) (Except.ok r)) = "success"
    apply storeAggregateStatus_eq_success
    refine ⟨("supermemory", storeSupermemory (Except.ok r)), ?_, ?_⟩
    · rw [storeDispatch_all_avail]
      simp
    · rw [hsm]
      decide
  · show _ ∈ storeDispatch .all ⟨true, true⟩ (Except.error e) (Except.ok r)
    rw [storeDispatch_all_avail]
    simp
  · intro st2 ext2 c2 md2 p2 av2 rm2 rs2
    show storeAggregateStatus _ = _ ∨ storeAggregateStatus _ = _
    unfold storeAggregateStatus
    split
    · left
      rfl
    · right
      rfl

/-- Concrete instance of the amended C3: the mixed-outcome store call
evaluates to aggregate status `'success'`. -/
theorem C3_witness :
    (storeMemoryUnified {} cexStoreExt "evidence-17" {} .all ⟨true, true⟩
      (Except.error "timeout after 3 retries") (Except.ok cexSMStoreRet)).2.status
      = "success" :=
  (C3_mixed_outcomes_return_success {} cexStoreExt "evidence-17" {}
    "timeout after 3 retries" cexSMStoreRet rfl).1

/-- C4: each backend wrapper converts a raised exception into a
per-backend failed outcome (never re-raising it), and the aggregate
store status is `'failed'` exactly when every dispatched backend
failed; whenever at least one backend succeeds the engine reports
`'success'` for the overall call. -/
theorem C4_backend_failures_contained (st : OrchState) (ext : StoreExternal)
    (content : String) (mdIn : MemoryMetadata) (provider : MemoryProvider)
    (avail : ProvidersAvailable) (rawM : Except String (Option String))
    (rawS : Except String SMStoreRet) :
    (∀ e, (storeMem0 (Except.error e)).status = "failed")
    ∧ (∀ e, (storeSupermemory (Except.error e)).status = "failed")
    ∧ (∀ e, (searchMem0 (Except.error e)).status = "failed"
        ∧ (searchMem0 (Except.error e)).results = [])
    ∧ (∀ e, (searchSupermemory (Except.error e)).status = "failed"
        ∧ (searchSupermemory (Except.error e)).results = [])
    ∧ ((storeMemoryUnified st ext content mdIn provider avail rawM rawS).2.status
          = "failed"
        ↔ ∀ x ∈ (storeMemoryUnified st ext content mdIn provider avail rawM
            rawS).2.results, x.2.status = "failed")
    ∧ ((∃ x ∈ (storeMemoryUnified st ext content mdIn provider avail rawM
          rawS).2.results, x.2.status ≠ "failed")
        → (storeMemoryUnified st ext content mdIn provider avail rawM
            rawS).2.status = "success") := by
  refine ⟨fun e => rfl, fun e => rfl, fun e => ⟨rfl, rfl⟩, fun e => ⟨rfl, rfl⟩,
    ?_, ?_⟩
  · exact storeAggregateStatus_eq_failed_iff
      (storeDispatch provider avail rawM rawS)
  · exact storeAggregateStatus_eq_success
      (storeDispatch provider avail rawM rawS)

/-- The response of a store call in which both backends failed. -/
def cexAllFailResp : StoreResponse :=
  (storeMemoryUnified {} cexStoreExt "evidence-17" {} .all ⟨true, true⟩
    (.error "timeout") (.error "http 500")).2

/-- Concrete instance of C4: a raised mem0 exception becomes a failed
per-backend outcome, and when both backends fail the aggregate status
is `'failed'`. -/
theorem C4_witness :
    (storeMem0 (Except.error "timeout")).status = "failed"
    ∧ cexAllFailResp.status = "failed" :=
  ⟨(C4_backend_failures_contained {} cexStoreExt "evidence-17" {} .all
      ⟨true, true⟩ (.error "timeout") (.error "http 500")).1 "timeout",
   (C4_backend_failures_contained {} cexStoreExt "evidence-17" {} .all
      ⟨true, true⟩ (.error "timeout") (.error "http 500")).2.2.2.2.1.mpr
      (by decide)⟩

/-- C8: `search_memory_unified` truncates to the caller's `limit` only
after merging and deduplicating all per-backend result sets: the
returned `merged_results` equal the first `min limit total` elements
of the full deduplicated merge of `results_by_provider`, and
`total_found` is the size of the full merge. -/
theorem C8_truncation_after_merge (st : OrchState) (ext : SearchExternal)
    (query : String) (caseId : Option String) (limit : Nat)
    (provider : MemoryProvider) (avail : ProvidersAvailable)
    (rawM : Except String Mem0SearchRet) (rawS : Except String SMSearchRet) :
    (searchMemoryUnified st ext query caseId limit provider avail rawM
        rawS).2.merged_results
      = (mergeSearchResults ((searchMemoryUnified st ext query caseId limit
          provider avail rawM rawS).2.results_by_provider)).take limit
    ∧ (searchMemoryUnified st ext query caseId limit provider avail rawM
        rawS).2.total_found
      = (mergeSearchResults ((searchMemoryUnified st ext query caseId limit
          provider avail rawM rawS).2.results_by_provider)).length
    ∧ ((searchMemoryUnified st ext query caseId limit provider avail rawM
        rawS).2.merged_results).length
      = min limit (mergeSearchResults ((searchMemoryUnified st ext query
          caseId limit provider avail rawM rawS).2.results_by_provider)).length := by
  refine ⟨rfl, rfl, ?_⟩
  show ((mergeSearchResults (searchDispatch provider avail rawM rawS)).take
    limit).length = _
  rw [List.length_take]
  rfl

/-! ## Properties of the result merger (claims C5, C10) -/

theorem mergeItems_seen_mono (p : String) (items : List SearchItem) :
    ∀ (seen : List String) (acc : List MergedItem) (s : String), s ∈ seen →
      s ∈ (mergeItems p items seen acc).1 := by
  induction items with
  | nil =>
      intro seen acc s hs
      simpa [mergeItems] using hs
  | cons r rest ih =>
      intro seen acc s hs
      simp only [mergeItems]
      split
      · exact ih _ _ _ hs
      · exact ih _ _ _ (List.mem_cons_of_mem _ hs)

theorem mergeItems_provenance (p : String) (items : List SearchItem) :
    ∀ (seen : List String) (acc : List MergedItem) (m : MergedItem),
      m ∈ (mergeItems p items seen acc).2 →
      m ∈ acc ∨ (m.item ∈ items ∧ m.source_provider = p ∧
        m.content_hash = sha256hex (contentStr m.item)) := by
  induction items with
  | nil =>
      intro seen acc m hm
      exact Or.inl (by simpa [mergeItems] using hm)
  | cons r rest ih =>
      intro seen acc m hm
      simp only [mergeItems] at hm
      by_cases hc : seen.contains (sha256hex (contentStr r)) = true
      · rw [if_pos hc] at hm
        rcases ih _ _ _ hm with h | ⟨h1, h2, h3⟩
        · exact Or.inl h
        · exact Or.inr ⟨List.mem_cons_of_mem _ h1, h2, h3⟩
      · rw [if_neg hc] at hm
        rcases ih _ _ _ hm with h | ⟨h1, h2, h3⟩
        · rcases List.mem_append.mp h with h | h
          · exact Or.inl h
          · have hme : m = (⟨r, p, sha256hex (contentStr r)⟩ : MergedItem) := by
              simpa using h
            subst hme
            exact Or.inr ⟨List.mem_cons_self r rest, rfl, rfl⟩
        · exact Or.inr ⟨List.mem_cons_of_mem _ h1, h2, h3⟩

theorem mergeItems_hashes (p : String) (items : List SearchItem) :
    ∀ (seen : List String) (acc : List MergedItem),
      (∀ m ∈ acc, m.content_hash ∈ seen) →
      (∀ m ∈ (mergeItems p items seen acc).2,
        m.content_hash ∈ (mergeItems p items seen acc).1)
      ∧ ((acc.map fun m => m.content_hash).Nodup →
          ((mergeItems p items seen acc).2.map fun m => m.content_hash).Nodup) := by
  induction items with
  | nil =>
      intro seen acc hacc
      refine ⟨?_, fun h => ?_⟩
      · simpa [mergeItems] using hacc
      · simpa [mergeItems] using h
  | cons r rest ih =>
      intro seen acc hacc
      simp only [mergeItems]
      by_cases hc : seen.contains (sha256hex (contentStr r)) = true
      · rw [if_pos hc]
        exact ih seen acc hacc
      · rw [if_neg hc]
        have hnots : sha256hex (contentStr r) ∉ seen := by
          simpa [List.contains] using hc
        have hacc2 : ∀ m ∈ acc ++ [(⟨r, p, sha256hex (contentStr r)⟩ : MergedItem)],
            m.content_hash ∈ sha256hex (contentStr r) :: seen := by
          intro m hm
          rcases List.mem_append.mp hm with h | h
          · exact List.mem_cons_of_mem _ (hacc m h)
          · have hme : m = (⟨r, p, sha256hex (contentStr r)⟩ : MergedItem) := by
              simpa using h
            subst hme
            exact List.mem_cons_self _ _
        refine ⟨(ih _ _ hacc2).1, fun hnd => ?_⟩
        refine (ih _ _ hacc2).2 ?_
        rw [List.map_append]
        refine List.Nodup.append hnd (by simp) ?_
        intro x hx hx2
        have hxs : x ∈ seen := by
          obtain ⟨m, hm, hme⟩ := List.mem_map.mp hx
          exact hme ▸ hacc m hm
        have hxe : x = sha256hex (contentStr r) := by simpa using hx2
        exact hnots (hxe ▸ hxs)

theorem mergeProviders_provenance
    (results : List (String × ProviderSearchResult)) :
    ∀ (seen : List String) (acc : List MergedItem) (m : MergedItem),
      m ∈ (mergeProviders results seen acc).2 →
      m ∈ acc ∨ ∃ pr, (m.source_provider, pr) ∈ results ∧
        pr.status = "success" ∧ m.item ∈ pr.results ∧
        m.content_hash = sha256hex (contentStr m.item) := by
  induction results with
  | nil =>
      intro seen acc m hm
      exact Or.inl (by simpa [mergeProviders] using hm)
  | cons x rest ih =>
      obtain ⟨p, pr⟩ := x
      intro seen acc m hm
      simp only [mergeProviders] at hm
      by_cases hs : pr.status = "success"
      · rw [if_pos hs] at hm
        rcases ih _ _ _ hm with h | ⟨pr2, h1, h2, h3, h4⟩
        · rcases mergeItems_provenance p pr.results _ _ _ h with h | ⟨h1, h2, h3⟩
          · exact Or.inl h
          · refine Or.inr ⟨pr, ?_, hs, h1, h3⟩
            rw [h2]
            exact List.mem_cons_self _ _
        · exact Or.inr ⟨pr2, List.mem_cons_of_mem _ h1, h2, h3, h4⟩
      · rw [if_neg hs] at hm
        rcases ih _ _ _ hm with h | ⟨pr2, h1, h2, h3, h4⟩
        · exact Or.inl h
        · exact Or.inr ⟨pr2, List.mem_cons_of_mem _ h1, h2, h3, h4⟩

theorem mergeProviders_hashes
    (results : List (String × ProviderSearchResult)) :
    ∀ (seen : List String) (acc : List MergedItem),
      (∀ m ∈ acc, m.content_hash ∈ seen) →
      (∀ m ∈ (mergeProviders results seen acc).2,
        m.content_hash ∈ (mergeProviders results seen acc).1)
      ∧ ((acc.map fun m => m.content_hash).Nodup →
          ((mergeProviders results seen acc).2.map fun m => m.content_hash).Nodup) := by
  induction results with
  | nil =>
      intro seen acc hacc
      refine ⟨?_, fun h => ?_⟩
      · simpa [mergeProviders] using hacc
      · simpa [mergeProviders] using h
  | cons x rest ih =>
      obtain ⟨p, pr⟩ := x
      intro seen acc hacc
      simp only [mergeProviders]
      by_cases hs : pr.status = "success"
      · rw [if_pos hs]
        exact ih _ _ (mergeItems_hashes p pr.results seen acc hacc).1
          |>.imp id fun hnd2 hnd =>
            hnd2 ((mergeItems_hashes p pr.results seen acc hacc).2 hnd)
      · rw [if_neg hs]
        exact ih _ _ hacc

/-- C10: `_merge_search_results` keeps only results coming from
providers whose per-provider status is `'success'` (every merged
element's `source_provider` names a success entry of the input that
contains its payload); every output element's `content_hash` is the
SHA-256 hex digest of its content string; and all `content_hash`
values in the output are pairwise distinct. -/
theorem C10_merge_success_only_and_hashes
    (results : List (String × ProviderSearchResult)) :
    (∀ m, m ∈ mergeSearchResults results →
      (∃ pr, (m.source_provider, pr) ∈ results ∧ pr.status = "success" ∧
        m.item ∈ pr.results)
      ∧ m.content_hash = sha256hex (contentStr m.item))
    ∧ ((mergeSearchResults results).map fun m => m.content_hash).Nodup := by
  constructor
  · intro m hm
    rcases mergeProviders_provenance results [] [] m hm with h | ⟨pr, h1, h2, h3, h4⟩
    · simp at h
    · exact ⟨⟨pr, h1, h2, h3⟩, h4⟩
  · exact (mergeProviders_hashes results [] [] (by simp)).2 (by simp)

/-- A merge input with one successful provider and one failed provider
(whose result list is nonetheless nonempty). -/
def cexProviderOkC10 : ProviderSearchResult :=
  { status := "success"
    results := [{ content := some "evidence-17" }]
    provider := "mem0" }

def cexProviderFailC10 : ProviderSearchResult :=
  { status := "failed"
    error := some "boom"
    results := [{ content := some "evidence-99" }]
    provider := "supermemory" }

def cexSearchResultsC10 : List (String × ProviderSearchResult) :=
  [("mem0", cexProviderOkC10), ("supermemory", cexProviderFailC10)]

/-- The head of the merged output of `cexSearchResultsC10`. -/
def cexMergedHead : MergedItem :=
  (mergeSearchResults cexSearchResultsC10).headD
    { item := {}, source_provider := "", content_hash := "" }

/-- Concrete instance of C10: the first merged element of the mixed
input comes from the successful provider and carries the digest of its
content. -/
theorem C10_witness :
    (∃ pr, (cexMergedHead.source_provider, pr) ∈ cexSearchResultsC10 ∧
      pr.status = "success" ∧ cexMergedHead.item ∈ pr.results)
    ∧ cexMergedHead.content_hash = sha256hex (contentStr cexMergedHead.item) :=
  (C10_merge_success_only_and_hashes cexSearchResultsC10).1 cexMergedHead
    (by decide)

/-- A merge input in which two different backends each return a result
with identical content. -/
def cexDupItemA : SearchItem := { content := some "evidence-17" }

def cexDupItemB : SearchItem :=
  { content := some "evidence-17"
    itemId := some "sm-1" }

def cexMergeInput : List (String × ProviderSearchResult) :=
  [("mem0", { status := "success", results := [cexDupItemA], provider := "mem0" }),
   ("supermemory",
    { status := "success", results := [cexDupItemB], provider := "supermemory" })]

/-- C5 is false on the code: merging two backends that each return a
result with identical content does produce exactly one entry for that
content, but the entry records only the first-seen backend in its
single `source_provider` field — the duplicate's backend
(`"supermemory"`) is discarded, so no field of the merged entry
contains both backend names (there is no `sourceBackends` set in the
code). -/
theorem C5_counterexample :
    mergeSearchResults cexMergeInput =
      [(⟨cexDupItemA, "mem0", sha256hex "evidence-17"⟩ : MergedItem)]
    ∧ "supermemory" ≠ "mem0" := by
  constructor
  · decide
  · decide

/-- C5 (amended): when two backends each return a result with the same
content string, the merged output contains exactly one entry for that
content, keyed by its content hash, keeping the first-seen payload and
attributing it to the first-seen backend only. -/
theorem C5_duplicate_content_first_seen_wins (p1 p2 : String)
    (i1 i2 : SearchItem) (hc : contentStr i1 = contentStr i2) (_hp : p1 ≠ p2) :
    mergeSearchResults
        [(p1, { status := "success", results := [i1], provider := p1 }),
         (p2, { status := "success", results := [i2], provider := p2 })]
      = [{ item := i1, source_provider := p1,
           content_hash := sha256hex (contentStr i1) }] := by
  simp [mergeSearchResults, mergeProviders, mergeItems, ← hc, List.contains]

def cexTieItemA : SearchItem := { content := some "evidence-22" }

def cexTieItemB : SearchItem := { text := some "evidence-22" }

/-- Concrete instance of the amended C5: identical content reported by
both backends (one via its `content` key, one via its `text` key)
merges to the single first-seen entry. -/
theorem C5_witness :
    mergeSearchResults
        [("mem0", { status := "success", results := [cexTieItemA], provider := "mem0" }),
         ("supermemory",
          { status := "success", results := [cexTieItemB], provider := "supermemory" })]
      = [(⟨cexTieItemA, "mem0", sha256hex (contentStr cexTieItemA)⟩ : MergedItem)] :=
  C5_duplicate_content_first_seen_wins "mem0" "supermemory"
    cexTieItemA cexTieItemB rfl (by decide)

/-! ## The resilient request layer (`MemoryPluginClient._request`,
memoryplugin_client.py lines 51-117)

The outcomes of successive `requests.request` calls are an input
stream; `time.sleep` calls are recorded as the exponent used in
`backoff_factor ** (attempt - 1)`. -/

/-- Outcome of one `requests.request` call: a raised
`requests.RequestException`, or a response with status and body. -/
inductive HttpAttempt where
  | transportError (msg : String) : HttpAttempt
  | response (status : Nat) (body : String) : HttpAttempt
deriving Repr, DecidableEq

/-- Observable result of `_request`: the returned body, or one of the
raised client errors (`MemoryPluginError` on exhausted network
retries, `MemoryPluginRateLimitError` on exhausted 429/5xx retries,
`MemoryPluginError` immediately on a ≥ 400 non-retryable status).
`exhausted` marks an input stream shorter than the loop would
consume. -/
inductive RequestOutcome where
  | success (body : String) : RequestOutcome
  | networkError (msg : String) : RequestOutcome
  | rateLimitError (status : Nat) : RequestOutcome
  | protocolError (status : Nat) (body : String) : RequestOutcome
  | exhausted : RequestOutcome
deriving Repr, DecidableEq

/-- The `while True` retry loop of `_request`.  `attempt0` is the
counter before the `attempt += 1` at the top of the iteration; `sleeps`
accumulates the exponent `attempt - 1` of each executed backoff sleep.
The 429/5xx test is line 91; the give-up tests are `attempt >
max_retries` (lines 84, 93); the non-retryable failure test is
`not resp.ok`, i.e. `status >= 400` (line 108). -/
def requestLoop (maxRetries : Nat) :
    List HttpAttempt → Nat → List Nat → RequestOutcome × List Nat
  | [], _, sleeps => (.exhausted, sleeps)
  | a :: rest, attempt0, sleeps =>
      let attempt := attempt0 + 1
      match a with
      | .transportError msg =>
          if attempt > maxRetries then (.networkError msg, sleeps)
          else requestLoop maxRetries rest attempt (sleeps ++ [attempt - 1])
      | .response status body =>
          if status = 429 ∨ (500 ≤ status ∧ status < 600) then
            if attempt > maxRetries then (.rateLimitError status, sleeps)
            else requestLoop maxRetries rest attempt (sleeps ++ [attempt - 1])
          else if ¬ status < 400 then
            (.protocolError status body, sleeps)
          else
            (.success body, sleeps)

/-- `_request` itself: the loop entered with `attempt = 0` and no
sleeps executed. -/
def request (maxRetries : Nat) (attempts : List HttpAttempt) :
    RequestOutcome × List Nat :=
  requestLoop maxRetries attempts 0 []

/-- C7 is false on the code as stated: a non-2xx status below 400
(here `304`) is not turned into a protocol error — the code's
non-retryable check is `not resp.ok`, i.e. `status >= 400`, so the
`304` response is returned as a success. -/
theorem C7_counterexample :
    request 3 [.response 304 "cached"] = (.success "cached", [])
    ∧ ¬ (200 ≤ 304 ∧ 304 < 300) := by
  constructor
  · decide
  · decide

/-- C7 (amended): on a transport failure or a 429/5xx response, the
loop raises the corresponding error (network error / rate-limit error)
when `attempt > max_retries`, and otherwise sleeps
`backoff_factor ** (attempt - 1)` seconds (recorded as exponent
`attempt - 1`) and retries with the counter incremented; any status of
at least 400 outside the retry set raises a protocol error immediately
with no retry, while any status below 400 (including 3xx) is returned
as success. -/
theorem C7_retry_policy (maxRetries : Nat) (rest : List HttpAttempt)
    (k : Nat) (sleeps : List Nat) :
    (∀ msg, k + 1 > maxRetries →
      requestLoop maxRetries (.transportError msg :: rest) k sleeps
        = (.networkError msg, sleeps))
    ∧ (∀ msg, k + 1 ≤ maxRetries →
      requestLoop maxRetries (.transportError msg :: rest) k sleeps
        = requestLoop maxRetries rest (k + 1) (sleeps ++ [k]))
    ∧ (∀ status body, (status = 429 ∨ (500 ≤ status ∧ status < 600)) →
        k + 1 > maxRetries →
      requestLoop maxRetries (.response status body :: rest) k sleeps
        = (.rateLimitError status, sleeps))
    ∧ (∀ status body, (status = 429 ∨ (500 ≤ status ∧ status < 600)) →
        k + 1 ≤ maxRetries →
      requestLoop maxRetries (.response status body :: rest) k sleeps
        = requestLoop maxRetries rest (k + 1) (sleeps ++ [k]))
    ∧ (∀ status body, ¬ (status = 429 ∨ (500 ≤ status ∧ status < 600)) →
        400 ≤ status →
      requestLoop maxRetries (.response status body :: rest) k sleeps
        = (.protocolError status body, sleeps))
    ∧ (∀ status body, ¬ (status = 429 ∨ (500 ≤ status ∧ status < 600)) →
        status < 400 →
      requestLoop maxRetries (.response status body :: rest) k sleeps
        = (.success body, sleeps)) := by
  refine ⟨?_, ?_, ?_, ?_, ?_, ?_⟩
  · intro msg h
    simp only [requestLoop]
    rw [if_pos h]
  · intro msg h
    simp only [requestLoop]
    rw [if_neg (by omega)]
    simp
  · intro status body hr h
    simp only [requestLoop]
    rw [if_pos hr, if_pos h]
  · intro status body hr h
    simp only [requestLoop]
    rw [if_pos hr, if_neg (by omega)]
    simp
  · intro status body hr h
    simp only [requestLoop]
    rw [if_neg hr, if_pos (by omega)]
  · intro status body hr h
    simp only [requestLoop]
    rw [if_neg hr, if_neg (by omega)]

/-- Concrete instances of the amended C7: a transport failure past the
retry budget raises the network error; a 500 answered by a 200 retries
once (sleeping with exponent 0) and succeeds; a 404 fails immediately
with a protocol error and no sleep. -/
theorem C7_witness :
    requestLoop 3 [.transportError "conn reset"] 3 []
      = (.networkError "conn reset", [])
    ∧ requestLoop 3 [.response 500 "err", .response 200 "okbody"] 0 []
      = (.success "okbody", [0])
    ∧ requestLoop 3 [.response 404 "missing"] 0 []
      = (.protocolError 404 "missing", []) :=
  ⟨(C7_retry_policy 3 [] 3 []).1 "conn reset" (by omega),
   Eq.trans
     ((C7_retry_policy 3 [.response 200 "okbody"] 0 []).2.2.2.1 500 "err"
       (by omega) (by omega))
     ((C7_retry_policy 3 [] 1 [0]).2.2.2.2.2 200 "okbody" (by omega) (by omega)),
   (C7_retry_policy 3 [] 0 []).2.2.2.2.1 404 "missing" (by omega) (by omega)⟩

/-! ## The backend adapters' `store` (claim C6)

`Mem0Adapter.store` (mem0_adapter.py lines 36-58) and
`SuperMemoryAdapter.store` (supermemory_adapter.py lines 31-49). -/

/-- The `MemoryRecord` dataclass of the adapter layer
(memory_adapter.py lines 7-20).  `legal_relevance_score` is
`metadata.get("legal_relevance", 0.0)`; we record the looked-up
metadata value, `none` standing for the `0.0` default. -/
structure AdapterMemoryRecord where
  id : String
  content : String
  metadata : List (String × String)
  timestamp : String
  source_system : String
  legal_relevance_score : Option String := none
deriving Repr, DecidableEq

/-- `Mem0Adapter.store`: raise if not initialized; otherwise draw a
fresh uuid4 (`freshId`), push the content to the primary (and optional
secondary) client — client exceptions propagate — and return a record
whose `id` is the adapter's own fresh draw.  No caller-supplied id is
consulted. -/
def mem0AdapterStore (isInitialized : Bool) (freshId timestamp : String)
    (content : String) (metadata : List (String × String))
    (primaryAdd : Except String Unit)
    (secondaryAdd : Option (Except String Unit)) :
    Except String AdapterMemoryRecord :=
  if !isInitialized then .error "Mem0 adapter not initialized"
  else
    match primaryAdd with
    | .error e => .error e
    | .ok _ =>
        match secondaryAdd with
        | some (.error e) => .error e
        | _ =>
            .ok ⟨freshId, content, metadata, timestamp, "Mem0",
              metadata.lookup "legal_relevance"⟩

/-- `SuperMemoryAdapter.store`: same shape with a single client. -/
def superMemoryAdapterStore (isInitialized : Bool)
    (freshId timestamp : String) (content : String)
    (metadata : List (String × String)) (clientStore : Except String Unit) :
    Except String AdapterMemoryRecord :=
  if !isInitialized then .error "SuperMemory adapter not initialized"
  else
    match clientStore with
    | .error e => .error e
    | .ok _ =>
        .ok ⟨freshId, content, metadata, timestamp, "SuperMemory",
          metadata.lookup "legal_relevance"⟩

/-- C6 is false on the code: for a single logical write (same content
and metadata) fanned out to both adapters, each adapter's `store`
invents its own record id — the uuid4 it draws internally
(`record_id = str(uuid.uuid4())`) — so the two backends' records carry
different ids and no engine-assigned id exists. -/
theorem C6_counterexample :
    mem0AdapterStore true "aaaa-1111" "2025-10-18T01:00:00" "evidence-17" []
        (.ok ()) none
      = Except.ok ⟨"aaaa-1111", "evidence-17", [], "2025-10-18T01:00:00",
          "Mem0", none⟩
    ∧ superMemoryAdapterStore true "bbbb-2222" "2025-10-18T01:00:01"
        "evidence-17" [] (.ok ())
      = Except.ok ⟨"bbbb-2222", "evidence-17", [], "2025-10-18T01:00:01",
          "SuperMemory", none⟩
    ∧ ("aaaa-1111" : String) ≠ "bbbb-2222" := by
  refine ⟨rfl, rfl, by decide⟩

/-- C6 (amended): each adapter's `store` assigns the record id from
its own internal uuid4 draw; consequently, when the two adapters store
the same logical write with distinct draws, the resulting record ids
differ across backends. -/
theorem C6_adapter_invents_id (freshId freshId2 ts ts2 content content2 : String)
    (md md2 : List (String × String)) (pa : Except String Unit)
    (sa : Option (Except String Unit)) (cs : Except String Unit) :
    (∀ r, mem0AdapterStore true freshId ts content md pa sa = Except.ok r →
      r.id = freshId)
    ∧ (∀ r, superMemoryAdapterStore true freshId2 ts2 content2 md2 cs
        = Except.ok r → r.id = freshId2)
    ∧ (freshId ≠ freshId2 → ∀ r r2,
        mem0AdapterStore true freshId ts content md pa sa = Except.ok r →
        superMemoryAdapterStore true freshId2 ts2 content2 md2 cs = Except.ok r2 →
        r.id ≠ r2.id) := by
  have hm : ∀ r, mem0AdapterStore true freshId ts content md pa sa = Except.ok r →
      r.id = freshId := by
    intro r h
    cases pa with
    | error e => simp [mem0AdapterStore] at h
    | ok u =>
        cases sa with
        | none =>
            simp only [mem0AdapterStore, Bool.not_true, Bool.false_eq_true,
              if_false, Except.ok.injEq] at h
            rw [← h]
        | some s2 =>
            cases s2 with
            | error e => simp [mem0AdapterStore] at h
            | ok u2 =>
                simp only [mem0AdapterStore, Bool.not_true, Bool.false_eq_true,
                  if_false, Except.ok.injEq] at h
                rw [← h]
  have hs : ∀ r, superMemoryAdapterStore true freshId2 ts2 content2 md2 cs
      = Except.ok r → r.id = freshId2 := by
    intro r h
    cases cs with
    | error e => simp [superMemoryAdapterStore] at h
    | ok u =>
        simp only [superMemoryAdapterStore, Bool.not_true, Bool.false_eq_true,
          if_false, Except.ok.injEq] at h
        rw [← h]
  refine ⟨hm, hs, ?_⟩
  intro hne r r2 h1 h2
  rw [hm r h1, hs r2 h2]
  exact hne

/-- Concrete instance of the amended C6: with draws `"aaaa-1111"` and
`"bbbb-2222"`, the two adapters' records for the same logical write
carry different ids. -/
theorem C6_witness :
    (⟨"aaaa-1111", "evidence-17", [], "t1", "Mem0", none⟩ :
        AdapterMemoryRecord).id ≠
      (⟨"bbbb-2222", "evidence-17", [], "t2", "SuperMemory", none⟩ :
        AdapterMemoryRecord).id :=
  (C6_adapter_invents_id "aaaa-1111" "bbbb-2222" "t1" "t2" "evidence-17"
      "evidence-17" [] [] (.ok ()) none (.ok ())).2.2 (by decide) _ _ rfl rfl

end QMO
